import Mathlib

/-!
Verification of the s3-site repository (lib/bucket.js and lib/s3-site.js):
a shallow embedding of the bucket lifecycle controller and the directory
upload traverser, with theorems checking the specification's claims.

Conventions of the embedding:
* JS strings are Lean `String`s; the JS string primitives used by the source
  (`String.prototype.replace` with a string pattern, `substr`, `Array.join`)
  are reimplemented faithfully below on `List Char`.
* The AWS S3 client (`this.s3`) is an external collaborator.  It is embedded
  as a record of request handlers `S3Service σ` over an abstract remote
  state `σ`; `awsModel` is the concrete instantiation with a deterministic
  model of the storage service.  Every call made by the controller is also
  appended to a request log, so theorems can speak about which remote
  requests an operation issues and in which order.
* Node-style callbacks with an `err` first argument become `Option JsErr`
  (no result) or `Except JsErr α` (with a result).
* The local filesystem is embedded as a tree `FSTree`; IO failures of
  `readdir` / `stat` / `readFile` are injected as error nodes of the tree.
-/

namespace S3Site

/- ---------------------------------------------------------------------------
JS string primitives (List Char level)
--------------------------------------------------------------------------- -/

/-- Delete the first occurrence of `pat` in a list.  This is the behaviour of
JS `s.replace(pat, '')` when `pat` is a plain string: only the leftmost
occurrence is removed; if there is no occurrence the string is unchanged. -/
def deleteFirstOccL (pat : List Char) : List Char → List Char
  | [] => []
  | c :: rest =>
    if pat <+: (c :: rest) then List.drop pat.length (c :: rest)
    else c :: deleteFirstOccL pat rest

/-- JS `filePath.replace(pat, '')` with a string pattern. -/
def jsReplaceFirst (s pat : String) : String :=
  ⟨deleteFirstOccL pat.data s.data⟩

/-- JS `s.substr(n)`: the substring from character index `n` on. -/
def jsSubstrFrom (s : String) (n : Nat) : String :=
  ⟨s.data.drop n⟩

/-- JS `s.substr(0, n)`: the first `n` characters. -/
def jsTake (s : String) (n : Nat) : String :=
  ⟨s.data.take n⟩

/-- JS `s.length` (all our strings are plain ASCII paths, so the UTF-16
length of the JS string is the character count). -/
def strLen (s : String) : Nat := s.data.length

/-- Index of the last occurrence of a character, if any. -/
def lastIdxOf (ch : Char) : List Char → Option Nat
  | [] => none
  | c :: rest =>
    match lastIdxOf ch rest with
    | some i => some (i + 1)
    | none => if c = ch then some 0 else none

/-- The part of a path after its last '/' (the basename, for paths with no
trailing slash). -/
def afterLastSlash (l : List Char) : List Char :=
  match lastIdxOf '/' l with
  | none => l
  | some i => l.drop (i + 1)

/-- Node `path.extname` (posix), on character lists: the suffix of the
basename starting at its last dot; empty when the basename has no dot, when
its only dot is the leading character (dotfiles such as `.html` have no
extension), and for the special basename `..`. -/
def extnameL (l : List Char) : List Char :=
  let base := afterLastSlash l
  match lastIdxOf '.' base with
  | none => []
  | some 0 => []
  | some i => if base = ['.', '.'] then [] else base.drop i

/-- Node `path.extname` on strings. -/
def extname (s : String) : String := ⟨extnameL s.data⟩

/-- Node `path.join(a, b)` for a directory path `a` and an entry name `b`
as produced by `fs.readdir`: when `a` already ends in a separator the
duplicate is collapsed (`path.join("/site/", "x") = "/site/x"`), otherwise a
separator is inserted.  Dot-segment normalization is not modelled: readdir
entry names contain no separators, and the special entries `.` and `..` are
never returned by readdir. -/
def pathJoin (a b : String) : String :=
  if a.data.getLast? = some '/' then a ++ b else a ++ "/" ++ b

/-- An entry name as returned by `fs.readdir`: non-empty, free of path
separators, and not one of the special entries `.` and `..` (which readdir
never returns, and which `path.join` would normalize away). -/
def nameOk (n : String) : Bool :=
  !(n.data.isEmpty) && !(n.data.contains '/') && !(n == ".") && !(n == "..")

/-- JS `Array.prototype.join('-')`. -/
def joinHyphen : List String → String
  | [] => ""
  | [s] => s
  | s :: rest => s ++ "-" ++ joinHyphen rest

/- ---------------------------------------------------------------------------
Options and bucket name (bucket.js constructor and _createBucketName)
--------------------------------------------------------------------------- -/

/-- The caller-supplied site options (`options` in bucket.js).  JS fields
that may be `undefined` are modelled as strings / lists with `""` / `[]`
defaults; string truthiness tests in the source become `≠ ""`.  The source
field `options.prefix` is named `pfx` here. -/
structure DeployOptions where
  name : String := ""
  env : String := ""
  pfx : String := ""
  srcPath : String := ""
  indexDocument : String := ""
  removeExtensions : List String := []
  noCache : List String := []
deriving DecidableEq

/-- `Bucket.prototype._createBucketName`: start from `[name]`, unshift `env`
when truthy, then unshift `prefix` when truthy, and join with '-'. -/
def createBucketName (o : DeployOptions) : String :=
  let parts := [o.name]
  let parts := if o.env ≠ "" then o.env :: parts else parts
  let parts := if o.pfx ≠ "" then o.pfx :: parts else parts
  joinHyphen parts

/-- The bucket name as the spec words it: hyphen-join of the non-empty
members of `[prefix, env, name]` in that order. -/
def specBucketName (o : DeployOptions) : String :=
  joinHyphen (([o.pfx, o.env, o.name]).filter (fun s => s != ""))

/-- The bucket controller: the constructor stores the options and computes
the bucket name once (`this.bucketName = this._createBucketName(options)`). -/
structure BucketCtl where
  opts : DeployOptions
  bucketName : String
deriving DecidableEq

/-- The `Bucket` constructor. -/
def mkBucket (opts : DeployOptions) : BucketCtl :=
  { opts := opts, bucketName := createBucketName opts }

/- ---------------------------------------------------------------------------
Errors and remote requests
--------------------------------------------------------------------------- -/

/-- An error object returned by the AWS client (only the fields the source
inspects: `statusCode`, plus an error code for readability). -/
structure RemoteErr where
  statusCode : Nat
  code : String
deriving DecidableEq

/-- A local filesystem error (`err` from `fs.readdir` / `fs.stat` /
`fs.readFile`). -/
structure IOErr where
  msg : String
deriving DecidableEq

/-- An error value passed to a Node callback by the source.  `notFoundMsg`
is the string sentinel `'Does not exist'` produced by `verifyExistence`; the
other constructors carry AWS error objects and fs error objects unchanged.
A JS `===` comparison against the sentinel string is true only for
`notFoundMsg`. -/
inductive JsErr where
  | notFoundMsg : JsErr
  | remote : RemoteErr → JsErr
  | io : IOErr → JsErr
deriving DecidableEq

/-- One entry of the `Contents` array returned by `s3.listObjects` (only the
`Key` field is ever read by the source). -/
structure ObjectContent where
  Key : String
deriving DecidableEq

/-- Parameters of an `s3.putObject` call as built by `uploadFile`.  `body` is
`none` when the JS value would be `undefined` (a failed `fs.readFile` leaves
`fileBuffer` undefined). -/
structure PutParams where
  key : String
  body : Option String
  contentType : String
  cacheControl : Option String := none
  expires : Option Nat := none
deriving DecidableEq

/-- The remote requests the controller can issue; operations append each
call they make to a log, so sequencing and skipping of steps is visible. -/
inductive S3Request where
  | headBucket : String → S3Request
  | listObjects : String → S3Request
  | deleteObjects : String → List String → S3Request
  | deleteBucket : String → S3Request
  | createBucket : String → S3Request
  | putBucketWebsite : String → String → S3Request
  | putBucketPolicy : String → String → S3Request
  | putObject : String → PutParams → S3Request
deriving DecidableEq

/- ---------------------------------------------------------------------------
Policy template (lib/policy.json)
--------------------------------------------------------------------------- -/

/-- Modelled from the spec: the repository file `lib/policy.json` is not in
the sources.  Per the spec it is a policy template "granting public read on
all objects under the bucket" whose "resource field is parameterized with
the canonical bucket name before submission"; bucket.js reads and writes
`policy.Statement[0].Resource`. -/
structure PolicyStatement where
  Sid : String := "AddPerm"
  Effect : String := "Allow"
  Principal : String := "*"
  Action : String := "s3:GetObject"
  Resource : String := "arn:aws:s3:::"
deriving DecidableEq

/-- Modelled from the spec: the parsed policy.json document. -/
structure PolicyDoc where
  Version : String := "2012-10-17"
  Statement : List PolicyStatement := [{}]
deriving DecidableEq

/-- `JSON.stringify` of the policy document (a fixed rendering; only used as
an opaque payload whose equality tracks the document's). -/
def policyStatementJson (s : PolicyStatement) : String :=
  "\x7b\"Sid\":\"" ++ s.Sid ++ "\",\"Effect\":\"" ++ s.Effect ++
    "\",\"Principal\":\"" ++ s.Principal ++ "\",\"Action\":\"" ++ s.Action ++
    "\",\"Resource\":\"" ++ s.Resource ++ "\"\x7d"

/-- Rendering of the statement array. -/
def policyStatementsJson : List PolicyStatement → String
  | [] => ""
  | [s] => policyStatementJson s
  | s :: rest => policyStatementJson s ++ "," ++ policyStatementsJson rest

/-- `JSON.stringify(bucketPolicy)`. -/
def policyJson (d : PolicyDoc) : String :=
  "\x7b\"Version\":\"" ++ d.Version ++ "\",\"Statement\":[" ++
    policyStatementsJson d.Statement ++ "]\x7d"

/- ---------------------------------------------------------------------------
The S3 client interface and the system state
--------------------------------------------------------------------------- -/

/-- The AWS S3 client, abstracted over its remote state `σ`: each method
consumes the remote state and produces a response and a new remote state.
Methods with no payload answer `Option RemoteErr` (an error or success);
`listObjects` answers the `Contents` array or an error. -/
structure S3Service (σ : Type) where
  headBucket : String → σ → Option RemoteErr × σ
  listObjects : String → σ → Except RemoteErr (List ObjectContent) × σ
  deleteObjects : String → List String → σ → Option RemoteErr × σ
  deleteBucket : String → σ → Option RemoteErr × σ
  createBucket : String → σ → Option RemoteErr × σ
  putBucketWebsite : String → String → σ → Option RemoteErr × σ
  putBucketPolicy : String → String → σ → Option RemoteErr × σ
  putObject : String → PutParams → σ → Option RemoteErr × σ

/-- The full state an operation can touch: the remote service state, the
module-level policy template loaded by `require('./policy.json')` (JS module
scope is shared mutable state), and the log of issued remote requests. -/
structure Sys (σ : Type) where
  remote : σ
  template : PolicyDoc
  log : List S3Request
deriving DecidableEq

/- ---------------------------------------------------------------------------
Lifecycle operations (bucket.js)
--------------------------------------------------------------------------- -/

variable {σ : Type}

/-- `Bucket.prototype.verifyExistence`: a `headBucket` probe; an error with
`statusCode == 404` becomes the `'Does not exist'` sentinel, any other
response (error or success) is passed to the callback unchanged. -/
def verifyExistence (svc : S3Service σ) (b : String) (sys : Sys σ) :
    Option JsErr × Sys σ :=
  match svc.headBucket b sys.remote with
  | (r, s') =>
    let sys' : Sys σ := ⟨s', sys.template, sys.log ++ [S3Request.headBucket b]⟩
    match r with
    | some e =>
      if e.statusCode = 404 then (some JsErr.notFoundMsg, sys')
      else (some (JsErr.remote e), sys')
    | none => (none, sys')

/-- `Bucket.prototype.listContents`: `s3.listObjects`, passing the
`Contents` array on success (`res ? res['Contents'] : null`). -/
def listContents (svc : S3Service σ) (b : String) (sys : Sys σ) :
    Except JsErr (List ObjectContent) × Sys σ :=
  match svc.listObjects b sys.remote with
  | (r, s') =>
    let sys' : Sys σ := ⟨s', sys.template, sys.log ++ [S3Request.listObjects b]⟩
    match r with
    | Except.ok contents => (Except.ok contents, sys')
    | Except.error e => (Except.error (JsErr.remote e), sys')

/-- `Bucket.prototype.removeContents`.  The guard `!contents[0]` tests
emptiness (the elements are JS objects, which are always truthy); otherwise
one `deleteObjects` request is issued whose object list is
`_.map(contents, pick 'Key')`. -/
def removeContents (svc : S3Service σ) (b : String)
    (contents : List ObjectContent) (sys : Sys σ) : Option JsErr × Sys σ :=
  if contents.isEmpty then (none, sys)
  else
    match svc.deleteObjects b (contents.map ObjectContent.Key) sys.remote with
    | (r, s') =>
      (r.map JsErr.remote,
        ⟨s', sys.template,
         sys.log ++ [S3Request.deleteObjects b (contents.map ObjectContent.Key)]⟩)

/-- `Bucket.prototype.removeBucket`: `s3.deleteBucket`. -/
def removeBucket (svc : S3Service σ) (b : String) (sys : Sys σ) :
    Option JsErr × Sys σ :=
  match svc.deleteBucket b sys.remote with
  | (r, s') =>
    (r.map JsErr.remote,
      ⟨s', sys.template, sys.log ++ [S3Request.deleteBucket b]⟩)

/-- The sequencing discipline of `async.series` / `async.waterfall`: the
next step runs only when the previous step reported no error; the first
error short-circuits the remaining steps. -/
def bindStep (prev : Option JsErr × Sys σ)
    (next : Sys σ → Option JsErr × Sys σ) : Option JsErr × Sys σ :=
  match prev with
  | (some e, sys) => (some e, sys)
  | (none, sys) => next sys

/-- `async.waterfall` sequencing for a step that passes a result on. -/
def bindStepL (prev : Except JsErr (List ObjectContent) × Sys σ)
    (next : List ObjectContent → Sys σ → Option JsErr × Sys σ) :
    Option JsErr × Sys σ :=
  match prev with
  | (Except.error e, sys) => (some e, sys)
  | (Except.ok contents, sys) => next contents sys

/-- The final callback of `destroy`'s waterfall: `!err || err === 'Does not
exist' ? callback() : callback(err)` — no error or the sentinel string means
success, anything else is surfaced. -/
def destroyFinal : Option JsErr × Sys σ → Option JsErr × Sys σ
  | (none, sys) => (none, sys)
  | (some e, sys) =>
    if e = JsErr.notFoundMsg then (none, sys) else (some e, sys)

/-- Step three of `destroy`'s waterfall: `removeContents` on the listed
contents, then `removeBucket`. -/
def destroyStep3 (svc : S3Service σ) (b : String)
    (contents : List ObjectContent) (sys : Sys σ) : Option JsErr × Sys σ :=
  bindStep (removeContents svc b contents sys) (removeBucket svc b)

/-- Step two of `destroy`'s waterfall: `listContents`, then the rest. -/
def destroyStep2 (svc : S3Service σ) (b : String) (sys : Sys σ) :
    Option JsErr × Sys σ :=
  bindStepL (listContents svc b sys) (destroyStep3 svc b)

/-- The body of `destroy`'s `async.waterfall([verifyExistence, listContents,
removeContents, removeBucket])`: each step runs only after the previous
succeeded, and the first error short-circuits the remaining steps. -/
def destroySteps (svc : S3Service σ) (b : String) (sys : Sys σ) :
    Option JsErr × Sys σ :=
  bindStep (verifyExistence svc b sys) (destroyStep2 svc b)

/-- `Bucket.prototype.destroy`: the waterfall wired to its final
callback. -/
def destroy (svc : S3Service σ) (b : String) (sys : Sys σ) :
    Option JsErr × Sys σ :=
  destroyFinal (destroySteps svc b sys)

/-- `Bucket.prototype.createBucket`: `s3.createBucket`. -/
def createBucket (svc : S3Service σ) (b : String) (sys : Sys σ) :
    Option JsErr × Sys σ :=
  match svc.createBucket b sys.remote with
  | (r, s') =>
    (r.map JsErr.remote,
      ⟨s', sys.template, sys.log ++ [S3Request.createBucket b]⟩)

/-- The index document `makeWebsite` configures:
`this.options.indexDocument || 'index.html'` (string truthiness). -/
def websiteSuffix (opts : DeployOptions) : String :=
  if opts.indexDocument = "" then "index.html" else opts.indexDocument

/-- `Bucket.prototype.makeWebsite`: sets the website configuration. -/
def makeWebsite (svc : S3Service σ) (ctl : BucketCtl) (sys : Sys σ) :
    Option JsErr × Sys σ :=
  match svc.putBucketWebsite ctl.bucketName (websiteSuffix ctl.opts) sys.remote with
  | (r, s') =>
    (r.map JsErr.remote,
      ⟨s', sys.template,
        sys.log ++ [S3Request.putBucketWebsite ctl.bucketName (websiteSuffix ctl.opts)]⟩)

/-- The effect of `bucketPolicy.Statement[0].Resource += bucketName + '/*'`
on the policy document.  Because `_.clone(policy)` is shallow, the
`Statement` array is shared between `bucketPolicy` and the module-level
template, so this update describes both the submitted document and the
template's state afterwards. -/
def mutatedTemplate (tmpl : PolicyDoc) (bucketName : String) : PolicyDoc :=
  { tmpl with Statement :=
      match tmpl.Statement with
      | [] => []
      | s :: rest =>
        { s with Resource := s.Resource ++ bucketName ++ "/*" } :: rest }

/-- `Bucket.prototype.makePublic`: appends the bucket resource to the policy
statement (writing through the shallow clone to the module-level template)
and submits `JSON.stringify(bucketPolicy)`. -/
def makePublic (svc : S3Service σ) (ctl : BucketCtl) (sys : Sys σ) :
    Option JsErr × Sys σ :=
  match svc.putBucketPolicy ctl.bucketName
      (policyJson (mutatedTemplate sys.template ctl.bucketName)) sys.remote with
  | (r, s') =>
    (r.map JsErr.remote,
      ⟨s', mutatedTemplate sys.template ctl.bucketName,
        sys.log ++ [S3Request.putBucketPolicy ctl.bucketName
          (policyJson (mutatedTemplate sys.template ctl.bucketName))]⟩)

/-- The tail of `create`'s series: `makeWebsite`, then `makePublic`. -/
def createStep2 (svc : S3Service σ) (ctl : BucketCtl) (sys : Sys σ) :
    Option JsErr × Sys σ :=
  bindStep (makeWebsite svc ctl sys) (makePublic svc ctl)

/-- `Bucket.prototype.create`: `async.series([createBucket, makeWebsite,
makePublic])`, strictly sequential, first error aborts. -/
def create (svc : S3Service σ) (ctl : BucketCtl) (sys : Sys σ) :
    Option JsErr × Sys σ :=
  bindStep (createBucket svc ctl.bucketName sys) (createStep2 svc ctl)

/- ---------------------------------------------------------------------------
Upload traversal (bucket.js upload / uploadDirectory / uploadContent /
uploadFile)
--------------------------------------------------------------------------- -/

/-- The key computed by the first line of `uploadFile`:
`filePath.replace(this.options.srcPath, '').substr(1)` — delete the first
occurrence of `srcPath` anywhere in `filePath`, then drop the first
character of what remains. -/
def rawFileKey (src filePath : String) : String :=
  jsSubstrFrom (jsReplaceFirst filePath src) 1

/-- The extension-stripping step of `uploadFile`: when `path.extname` of the
key is a member of `options.removeExtensions`, cut the extension off with
`fileKey.substr(0, fileKey.length - extension.length)`. -/
def stripKey (rex : List String) (k : String) : String :=
  let extension := extname k
  if rex.contains extension then jsTake k (strLen k - strLen extension)
  else k

/-- The object key `uploadFile` puts a file under. -/
def fileKeyOf (src : String) (rex : List String) (filePath : String) : String :=
  stripKey rex (rawFileKey src filePath)

/-- Modelled from the spec: MIME-type inference from the file extension
(the external `mime` module); any pure function of the path serves, this one
is a fixed computable stand-in. -/
def mimeLookup (p : String) : String := "mime" ++ extname p

/-- The `putObject` params built by `uploadFile` for a file at `filePath`
whose `fs.readFile` produced `readResult`, at wall-clock time `now`.  The
source's readFile callback never inspects `err`: on a failed read the params
are still built, with `Body` left undefined.  When the computed key is in
`options.noCache` the params additionally carry the cache-control directives
and `Expires: new Date()` (the time of the call). -/
def uploadParams (opts : DeployOptions) (now : Nat) (filePath : String)
    (readResult : Except IOErr String) : PutParams :=
  if opts.noCache.contains (fileKeyOf opts.srcPath opts.removeExtensions filePath) then
    { key := fileKeyOf opts.srcPath opts.removeExtensions filePath
      body := readResult.toOption
      contentType := mimeLookup filePath
      cacheControl := some "no-cache, no-store, must-revalidate"
      expires := some now }
  else
    { key := fileKeyOf opts.srcPath opts.removeExtensions filePath
      body := readResult.toOption
      contentType := mimeLookup filePath }

/-- `Bucket.prototype.uploadFile`: compute the key, read the file, and issue
a single `putObject` — the read error is never checked, so the put is issued
regardless and its outcome alone reaches the callback. -/
def uploadFile (svc : S3Service σ) (ctl : BucketCtl) (now : Nat)
    (filePath : String) (readResult : Except IOErr String) (sys : Sys σ) :
    Option JsErr × Sys σ :=
  match svc.putObject ctl.bucketName
      (uploadParams ctl.opts now filePath readResult) sys.remote with
  | (r, s') =>
    (r.map JsErr.remote,
      ⟨s', sys.template,
        sys.log ++ [S3Request.putObject ctl.bucketName
          (uploadParams ctl.opts now filePath readResult)]⟩)

/-- The local directory tree rooted at some path, together with the injected
outcomes of the filesystem calls the traversal makes: a `file` node carries
the result of `fs.readFile` on it, a `dir` node the result of `fs.readdir`,
and a `statFail` node makes `fs.stat` fail at that path. -/
inductive FSTree where
  | file : Except IOErr String → FSTree
  | dir : Except IOErr (List (String × FSTree)) → FSTree
  | statFail : IOErr → FSTree

mutual

/-- Size measure used for termination of the traversal. -/
def FSTree.size : FSTree → Nat
  | FSTree.file _ => 1
  | FSTree.statFail _ => 1
  | FSTree.dir l => 1 + sizeListing l

/-- Size of a `readdir` outcome. -/
def sizeListing : Except IOErr (List (String × FSTree)) → Nat
  | Except.error _ => 1
  | Except.ok es => 1 + sizeEntries es

/-- Size of a directory listing. -/
def sizeEntries : List (String × FSTree) → Nat
  | [] => 1
  | e :: rest => 1 + FSTree.size e.2 + sizeEntries rest

end

mutual

/-- `Bucket.prototype.uploadContent`: `fs.stat` the path; on error the
callback receives the error at once; directories recurse into
`uploadDirectory`, files go to `uploadFile`. -/
def uploadContent (svc : S3Service σ) (ctl : BucketCtl) (now : Nat)
    (p : String) (t : FSTree) (sys : Sys σ) : Option JsErr × Sys σ :=
  match t with
  | FSTree.statFail e => (some (JsErr.io e), sys)
  | FSTree.file body => uploadFile svc ctl now p body sys
  | FSTree.dir listing => uploadDirectory svc ctl now p listing sys

/-- `Bucket.prototype.uploadDirectory`: `fs.readdir` the directory (its
error aborts via the waterfall), join each entry name onto the directory
path, and run `uploadContent` on every child.  The source dispatches the
children with `async.each` (unordered fan-out, first error wins); the
embedding serializes them in listing order, which realizes one admissible
schedule and leaves the set of issued requests unchanged. -/
def uploadDirectory (svc : S3Service σ) (ctl : BucketCtl) (now : Nat)
    (dirPath : String) (listing : Except IOErr (List (String × FSTree)))
    (sys : Sys σ) : Option JsErr × Sys σ :=
  match listing with
  | Except.error e => (some (JsErr.io e), sys)
  | Except.ok es => uploadEach svc ctl now dirPath es sys

/-- The `async.each(files, uploadContent)` loop of `uploadDirectory`. -/
def uploadEach (svc : S3Service σ) (ctl : BucketCtl) (now : Nat)
    (dirPath : String) (es : List (String × FSTree)) (sys : Sys σ) :
    Option JsErr × Sys σ :=
  match es with
  | [] => (none, sys)
  | e :: rest =>
    bindStep (uploadContent svc ctl now (pathJoin dirPath e.1) e.2 sys)
      (uploadEach svc ctl now dirPath rest)

end

/-- The stored state of one bucket in the model. -/
structure BucketData where
  objects : List PutParams := []
  website : Option String := none
  policy : Option String := none
deriving DecidableEq

/-- The remote store: an association of bucket names to bucket data (names
are unique in the store; the model's updates preserve this by removing every
binding of a name before re-adding it). -/
abbrev S3State := List (String × BucketData)

/-- Look up a bucket. -/
def S3State.find : S3State → String → Option BucketData
  | [], _ => none
  | e :: rest, b => if e.1 = b then some e.2 else S3State.find rest b

/-- Remove every binding of a bucket name. -/
def S3State.remove : S3State → String → S3State
  | [], _ => []
  | e :: rest, b =>
    if e.1 = b then S3State.remove rest b else e :: S3State.remove rest b

/-- Bind a bucket name to data (replacing any previous binding). -/
def S3State.set (st : S3State) (b : String) (d : BucketData) : S3State :=
  S3State.remove st b ++ [(b, d)]

/-- Overwrite-or-append an object by key, the effect of `putObject` on a
bucket's object list. -/
def putObjs (objs : List PutParams) (p : PutParams) : List PutParams :=
  objs.filter (fun o => o.key != p.key) ++ [p]

/-- Model S3 `headBucket`: 404 on a missing bucket. -/
def awsHeadBucket (b : String) (st : S3State) : Option RemoteErr × S3State :=
  match S3State.find st b with
  | some _ => (none, st)
  | none => (some ⟨404, "NotFound"⟩, st)

/-- Model S3 `listObjects`: every stored object's key (an empty bucket
yields an empty `Contents`, not an error). -/
def awsListObjects (b : String) (st : S3State) :
    Except RemoteErr (List ObjectContent) × S3State :=
  match S3State.find st b with
  | some d => (Except.ok (d.objects.map (fun o => { Key := o.key })), st)
  | none => (Except.error ⟨404, "NoSuchBucket"⟩, st)

/-- Model S3 `deleteObjects`: drops the named keys. -/
def awsDeleteObjects (b : String) (keys : List String) (st : S3State) :
    Option RemoteErr × S3State :=
  match S3State.find st b with
  | some d =>
    (none, S3State.set st b
      { d with objects := d.objects.filter (fun o => !(keys.contains o.key)) })
  | none => (some ⟨404, "NoSuchBucket"⟩, st)

/-- Model S3 `deleteBucket`: requires the bucket to be empty. -/
def awsDeleteBucket (b : String) (st : S3State) : Option RemoteErr × S3State :=
  match S3State.find st b with
  | some d =>
    if d.objects.isEmpty then (none, S3State.remove st b)
    else (some ⟨409, "BucketNotEmpty"⟩, st)
  | none => (some ⟨404, "NoSuchBucket"⟩, st)

/-- Model S3 `createBucket`: creating an already-owned bucket succeeds
without change (us-east-1 behaviour). -/
def awsCreateBucket (b : String) (st : S3State) : Option RemoteErr × S3State :=
  match S3State.find st b with
  | some _ => (none, st)
  | none => (none, S3State.set st b {})

/-- Model S3 `putBucketWebsite`: stores the website configuration. -/
def awsPutBucketWebsite (b suffix : String) (st : S3State) :
    Option RemoteErr × S3State :=
  match S3State.find st b with
  | some d => (none, S3State.set st b { d with website := some suffix })
  | none => (some ⟨404, "NoSuchBucket"⟩, st)

/-- Model S3 `putBucketPolicy`: stores the policy payload. -/
def awsPutBucketPolicy (b payload : String) (st : S3State) :
    Option RemoteErr × S3State :=
  match S3State.find st b with
  | some d => (none, S3State.set st b { d with policy := some payload })
  | none => (some ⟨404, "NoSuchBucket"⟩, st)

/-- Model S3 `putObject`: overwrite-or-append by key. -/
def awsPutObject (b : String) (p : PutParams) (st : S3State) :
    Option RemoteErr × S3State :=
  match S3State.find st b with
  | some d => (none, S3State.set st b { d with objects := putObjs d.objects p })
  | none => (some ⟨404, "NoSuchBucket"⟩, st)

/-- The deterministic model of AWS S3. -/
def awsModel : S3Service S3State where
  headBucket := awsHeadBucket
  listObjects := awsListObjects
  deleteObjects := awsDeleteObjects
  deleteBucket := awsDeleteBucket
  createBucket := awsCreateBucket
  putBucketWebsite := awsPutBucketWebsite
  putBucketPolicy := awsPutBucketPolicy
  putObject := awsPutObject

/- ---------------------------------------------------------------------------
Specification-side helpers: the files of a tree and their expected keys
--------------------------------------------------------------------------- -/

mutual

/-- The regular files under a directory listing, as pairs of the file's path
relative to the listing's root (forward-slash separators) and its content.
Only meaningful on error-free trees. -/
def filesOfEntries : List (String × FSTree) → List (String × String)
  | [] => []
  | e :: rest => filesOfNamed e.1 e.2 ++ filesOfEntries rest

/-- The files of one named entry. -/
def filesOfNamed (n : String) : FSTree → List (String × String)
  | FSTree.file (Except.ok b) => [(n, b)]
  | FSTree.file (Except.error _) => []
  | FSTree.statFail _ => []
  | FSTree.dir (Except.error _) => []
  | FSTree.dir (Except.ok es) =>
    (filesOfEntries es).map (fun f => (n ++ "/" ++ f.1, f.2))

end

mutual

/-- An error-free directory listing: every filesystem call the traversal
would make on it succeeds. -/
def entriesOk : List (String × FSTree) → Bool
  | [] => true
  | e :: rest => treeOk e.2 && entriesOk rest

/-- An error-free tree node. -/
def treeOk : FSTree → Bool
  | FSTree.file (Except.ok _) => true
  | FSTree.file (Except.error _) => false
  | FSTree.statFail _ => false
  | FSTree.dir (Except.error _) => false
  | FSTree.dir (Except.ok es) => entriesOk es

end

mutual

/-- Every entry name in a listing is a plausible `readdir` result. -/
def namesOkEntries : List (String × FSTree) → Bool
  | [] => true
  | e :: rest => nameOk e.1 && namesOkTree e.2 && namesOkEntries rest

/-- Every entry name beneath a node is a plausible `readdir` result. -/
def namesOkTree : FSTree → Bool
  | FSTree.file _ => true
  | FSTree.statFail _ => true
  | FSTree.dir (Except.error _) => true
  | FSTree.dir (Except.ok es) => namesOkEntries es

end

end S3Site

/- ---------------------------------------------------------------------------
Theorems
--------------------------------------------------------------------------- -/

namespace S3Site

/- ---------------------------------------------------------------------------
String-level lemmas about the JS replace used for key derivation
--------------------------------------------------------------------------- -/

/-- When the pattern does not occur, `replace` leaves the string alone. -/
theorem deleteFirstOccL_of_no_occ (pat : List Char) :
    ∀ s : List Char, ¬ pat <:+: s → deleteFirstOccL pat s = s := by
  intro s
  induction s with
  | nil => intro _; rfl
  | cons c t ih =>
    intro h
    rw [deleteFirstOccL, if_neg (fun hp => h hp.isInfix),
      ih (fun hi => h (List.infix_cons hi))]

/-- When the pattern occurs, `replace` removes exactly one occurrence: the
result is shorter by the pattern's length. -/
theorem length_deleteFirstOccL (pat : List Char) :
    ∀ s : List Char, pat <:+: s →
      (deleteFirstOccL pat s).length + pat.length = s.length := by
  intro s
  induction s with
  | nil =>
    intro h
    rw [List.infix_nil.mp h]
    rfl
  | cons c t ih =>
    intro h
    rw [deleteFirstOccL]
    by_cases hp : pat <+: (c :: t)
    · rw [if_pos hp]
      have hle := hp.length_le
      rw [List.length_drop]
      omega
    · rw [if_neg hp]
      have hi : pat <:+: t := (List.infix_cons_iff.mp h).resolve_left hp
      have := ih hi
      simp only [List.length_cons]
      omega

/-- C2 counterexample: the claim quantifies over every options record, but
with an empty `name` the source still keeps the empty part (the name list
always contains `options.name`), producing a trailing hyphen, e.g.
`"s3site-test-"` instead of the hyphen-join of non-empty parts
`"s3site-test"`. -/
theorem c2_bucketName_counterexample :
    createBucketName { name := "", env := "test", pfx := "s3site" } = "s3site-test-" ∧
    specBucketName { name := "", env := "test", pfx := "s3site" } = "s3site-test" ∧
    createBucketName { name := "", env := "test", pfx := "s3site" } ≠
      specBucketName { name := "", env := "test", pfx := "s3site" } := by
  refine ⟨rfl, rfl, ?_⟩
  decide

/-- C2 (amended): for every options record whose `name` is non-empty, the
bucket name computed at construction is the hyphen-join of the non-empty
members of `[prefix, env, name]` in that fixed order. -/
theorem c2_bucketName_join (o : DeployOptions) (hname : o.name ≠ "") :
    (mkBucket o).bucketName = specBucketName o := by
  unfold mkBucket createBucketName specBucketName
  by_cases henv : o.env = "" <;> by_cases hpfx : o.pfx = "" <;>
    simp [henv, hpfx, hname, joinHyphen, String.ext_iff]

/-- C2 witness: the two instances named by the claim, checked concretely via
the amended theorem. -/
theorem c2_bucketName_join_witness :
    ((mkBucket { name := "site", env := "test", pfx := "s3site" }).bucketName =
      specBucketName { name := "site", env := "test", pfx := "s3site" } ∧
     specBucketName { name := "site", env := "test", pfx := "s3site" } = "s3site-test-site") ∧
    ((mkBucket { name := "site", env := "test", pfx := "" }).bucketName =
      specBucketName { name := "site", env := "test", pfx := "" } ∧
     specBucketName { name := "site", env := "test", pfx := "" } = "test-site") :=
  ⟨⟨c2_bucketName_join { name := "site", env := "test", pfx := "s3site" } (by decide), rfl⟩,
   ⟨c2_bucketName_join { name := "site", env := "test", pfx := "" } (by decide), rfl⟩⟩

/-- C10: with no extension stripping configured, `uploadFile` derives the
object key by deleting the first occurrence of `srcPath` anywhere within
`filePath` and dropping the first character of the remainder; consequently,
for every `filePath` that does not contain `srcPath` as a substring the key
is `filePath` with only its first character removed, and for every
`filePath` of the form `p ++ srcPath ++ "/" ++ rel` with `p` non-empty
(`srcPath` occurring other than as the leading prefix) the key is not the
relative path `rel`. -/
theorem c10_key_derivation (opts : DeployOptions)
    (hrex : opts.removeExtensions = []) (fp p rel : String) :
    fileKeyOf opts.srcPath opts.removeExtensions fp =
      jsSubstrFrom (jsReplaceFirst fp opts.srcPath) 1 ∧
    (¬ opts.srcPath.data <:+: fp.data →
      fileKeyOf opts.srcPath opts.removeExtensions fp = jsSubstrFrom fp 1) ∧
    (p ≠ "" →
      fileKeyOf opts.srcPath opts.removeExtensions
        (p ++ opts.srcPath ++ "/" ++ rel) ≠ rel) := by
  have hkey : ∀ q, fileKeyOf opts.srcPath opts.removeExtensions q =
      rawFileKey opts.srcPath q := by
    intro q
    rw [hrex]
    simp [fileKeyOf, stripKey]
  refine ⟨by rw [hkey]; rfl, ?_, ?_⟩
  · intro h
    rw [hkey]
    unfold rawFileKey jsReplaceFirst
    rw [deleteFirstOccL_of_no_occ _ _ h]
  · intro hp hEq
    rw [hkey] at hEq
    have hp1 : 1 ≤ p.data.length := by
      cases hd : p.data with
      | nil => exact absurd (String.ext (by rw [hd])) hp
      | cons c l => simp [hd]
    have hd : (p ++ opts.srcPath ++ "/" ++ rel).data =
        p.data ++ (opts.srcPath.data ++ ('/' :: rel.data)) := by
      simp [String.data_append]
    have hinf : opts.srcPath.data <:+: (p ++ opts.srcPath ++ "/" ++ rel).data := by
      rw [hd]
      exact ⟨p.data, '/' :: rel.data, by simp⟩
    have hlen := length_deleteFirstOccL opts.srcPath.data _ hinf
    have hkl := congrArg (fun s : String => s.data.length) hEq
    simp only [rawFileKey, jsSubstrFrom, jsReplaceFirst, List.length_drop] at hkl
    have htot : (p ++ opts.srcPath ++ "/" ++ rel).data.length =
        p.data.length + (opts.srcPath.data.length + (1 + rel.data.length)) := by
      rw [hd]
      simp
      omega
    omega

/-- C10 witness: concrete keys computed through the theorem, with
`srcPath = "/s"`: a path not containing it loses only its first character,
and a path containing it in the middle does not map to the relative path. -/
theorem c10_key_derivation_witness :
    fileKeyOf "/s" [] "abc" = jsSubstrFrom "abc" 1 ∧
    fileKeyOf "/s" [] ("x" ++ "/s" ++ "/" ++ "r") ≠ "r" :=
  have h := c10_key_derivation { srcPath := "/s" } rfl "abc" "x" "r"
  ⟨h.2.1 (by decide), h.2.2 (by decide)⟩

/- ---------------------------------------------------------------------------
Step lemmas: how each lifecycle primitive reacts to its remote response
--------------------------------------------------------------------------- -/

/- ---------------------------------------------------------------------------
Store lemmas
--------------------------------------------------------------------------- -/

/-- Sequencing: an erroring step short-circuits the rest. -/
theorem bindStep_err (e : JsErr) (s : Sys σ)
    (f : Sys σ → Option JsErr × Sys σ) : bindStep (some e, s) f = (some e, s) :=
  rfl

/-- Sequencing: a successful step hands its state to the next. -/
theorem bindStep_ok (s : Sys σ) (f : Sys σ → Option JsErr × Sys σ) :
    bindStep (none, s) f = f s :=
  rfl

/-- Waterfall sequencing: an erroring step short-circuits the rest. -/
theorem bindStepL_err (e : JsErr) (s : Sys σ)
    (f : List ObjectContent → Sys σ → Option JsErr × Sys σ) :
    bindStepL (Except.error e, s) f = (some e, s) :=
  rfl

/-- Waterfall sequencing: a successful step hands its result on. -/
theorem bindStepL_ok (cs : List ObjectContent) (s : Sys σ)
    (f : List ObjectContent → Sys σ → Option JsErr × Sys σ) :
    bindStepL (Except.ok cs, s) f = f cs s :=
  rfl

/-- A 404 probe response becomes the NotFound sentinel. -/
theorem verifyExistence_404 (svc : S3Service σ) (b : String) (st : σ)
    (tmpl : PolicyDoc) (lg : List S3Request)
    (e : RemoteErr) (s1 : σ) (h : svc.headBucket b st = (some e, s1))
    (h404 : e.statusCode = 404) :
    verifyExistence svc b ⟨st, tmpl, lg⟩ =
      (some JsErr.notFoundMsg,
       ⟨s1, tmpl, lg ++ [S3Request.headBucket b]⟩) := by
  unfold verifyExistence
  rw [h]
  simp [h404]

/-- A non-404 probe error is passed through. -/
theorem verifyExistence_err (svc : S3Service σ) (b : String) (st : σ)
    (tmpl : PolicyDoc) (lg : List S3Request)
    (e : RemoteErr) (s1 : σ) (h : svc.headBucket b st = (some e, s1))
    (h404 : e.statusCode ≠ 404) :
    verifyExistence svc b ⟨st, tmpl, lg⟩ =
      (some (JsErr.remote e),
       ⟨s1, tmpl, lg ++ [S3Request.headBucket b]⟩) := by
  unfold verifyExistence
  rw [h]
  simp [h404]

/-- A successful probe yields no error. -/
theorem verifyExistence_ok (svc : S3Service σ) (b : String) (st : σ)
    (tmpl : PolicyDoc) (lg : List S3Request)
    (s1 : σ) (h : svc.headBucket b st = (none, s1)) :
    verifyExistence svc b ⟨st, tmpl, lg⟩ =
      (none, ⟨s1, tmpl, lg ++ [S3Request.headBucket b]⟩) := by
  unfold verifyExistence
  rw [h]

/-- A successful listing passes the `Contents` array on. -/
theorem listContents_ok (svc : S3Service σ) (b : String) (st : σ)
    (tmpl : PolicyDoc) (lg : List S3Request)
    (cs : List ObjectContent) (s2 : σ)
    (h : svc.listObjects b st = (Except.ok cs, s2)) :
    listContents svc b ⟨st, tmpl, lg⟩ =
      (Except.ok cs, ⟨s2, tmpl, lg ++ [S3Request.listObjects b]⟩) := by
  unfold listContents
  rw [h]

/-- A listing error is surfaced. -/
theorem listContents_err (svc : S3Service σ) (b : String) (st : σ)
    (tmpl : PolicyDoc) (lg : List S3Request)
    (e : RemoteErr) (s2 : σ)
    (h : svc.listObjects b st = (Except.error e, s2)) :
    listContents svc b ⟨st, tmpl, lg⟩ =
      (Except.error (JsErr.remote e),
       ⟨s2, tmpl, lg ++ [S3Request.listObjects b]⟩) := by
  unfold listContents
  rw [h]

/-- `removeContents` on a non-empty sequence forwards the bulk-delete
outcome. -/
theorem removeContents_nonempty (svc : S3Service σ) (b : String)
    (contents : List ObjectContent) (st : σ) (tmpl : PolicyDoc)
    (lg : List S3Request) (r : Option RemoteErr)
    (s3 : σ) (hne : contents ≠ [])
    (h : svc.deleteObjects b (contents.map ObjectContent.Key) st = (r, s3)) :
    removeContents svc b contents ⟨st, tmpl, lg⟩ =
      (r.map JsErr.remote,
       ⟨s3, tmpl,
        lg ++ [S3Request.deleteObjects b (contents.map ObjectContent.Key)]⟩) := by
  unfold removeContents
  rw [if_neg (by simp [hne])]
  rw [h]

/-- `removeBucket` forwards the `deleteBucket` outcome. -/
theorem removeBucket_split (svc : S3Service σ) (b : String) (st : σ)
    (tmpl : PolicyDoc) (lg : List S3Request)
    (r : Option RemoteErr) (s4 : σ)
    (h : svc.deleteBucket b st = (r, s4)) :
    removeBucket svc b ⟨st, tmpl, lg⟩ =
      (r.map JsErr.remote,
       ⟨s4, tmpl, lg ++ [S3Request.deleteBucket b]⟩) := by
  unfold removeBucket
  rw [h]

/-- C3: `destroy` runs verifyExistence, listContents, removeContents,
removeBucket strictly in that order (witnessed by the request log); when the
probe yields NotFound it skips every remaining step and reports success;
when any step yields a remote error it aborts the remaining steps and
returns exactly that error; and when every step succeeds it reports success
after the full sequence. -/
theorem c3_destroy_flow (svc : S3Service σ) (b : String) (sys : Sys σ) :
    (∀ e s1, svc.headBucket b sys.remote = (some e, s1) → e.statusCode = 404 →
      destroy svc b sys =
        (none, ⟨s1, sys.template, sys.log ++ [S3Request.headBucket b]⟩)) ∧
    (∀ e s1, svc.headBucket b sys.remote = (some e, s1) → e.statusCode ≠ 404 →
      destroy svc b sys =
        (some (JsErr.remote e),
         ⟨s1, sys.template, sys.log ++ [S3Request.headBucket b]⟩)) ∧
    (∀ s1 e s2, svc.headBucket b sys.remote = (none, s1) →
      svc.listObjects b s1 = (Except.error e, s2) →
      destroy svc b sys =
        (some (JsErr.remote e),
         ⟨s2, sys.template,
          sys.log ++ [S3Request.headBucket b] ++ [S3Request.listObjects b]⟩)) ∧
    (∀ s1 cs s2 e s3, svc.headBucket b sys.remote = (none, s1) →
      svc.listObjects b s1 = (Except.ok cs, s2) → cs ≠ [] →
      svc.deleteObjects b (cs.map ObjectContent.Key) s2 = (some e, s3) →
      destroy svc b sys =
        (some (JsErr.remote e),
         ⟨s3, sys.template,
          sys.log ++ [S3Request.headBucket b] ++ [S3Request.listObjects b] ++
            [S3Request.deleteObjects b (cs.map ObjectContent.Key)]⟩)) ∧
    (∀ s1 cs s2 sys3 e s4, svc.headBucket b sys.remote = (none, s1) →
      svc.listObjects b s1 = (Except.ok cs, s2) →
      removeContents svc b cs
        ⟨s2, sys.template,
         sys.log ++ [S3Request.headBucket b] ++ [S3Request.listObjects b]⟩ =
        (none, sys3) →
      svc.deleteBucket b sys3.remote = (some e, s4) →
      destroy svc b sys =
        (some (JsErr.remote e),
         ⟨s4, sys3.template, sys3.log ++ [S3Request.deleteBucket b]⟩)) ∧
    (∀ s1 cs s2 sys3 s4, svc.headBucket b sys.remote = (none, s1) →
      svc.listObjects b s1 = (Except.ok cs, s2) →
      removeContents svc b cs
        ⟨s2, sys.template,
         sys.log ++ [S3Request.headBucket b] ++ [S3Request.listObjects b]⟩ =
        (none, sys3) →
      svc.deleteBucket b sys3.remote = (none, s4) →
      destroy svc b sys =
        (none, ⟨s4, sys3.template, sys3.log ++ [S3Request.deleteBucket b]⟩)) := by
  obtain ⟨st0, tmpl0, lg0⟩ := sys
  refine ⟨?_, ?_, ?_, ?_, ?_, ?_⟩
  · intro e s1 h h404
    unfold destroy destroySteps
    rw [verifyExistence_404 svc b st0 tmpl0 lg0 e s1 h h404]
    rfl
  · intro e s1 h h404
    unfold destroy destroySteps
    rw [verifyExistence_err svc b st0 tmpl0 lg0 e s1 h h404]
    rfl
  · intro s1 e s2 h hl
    unfold destroy destroySteps
    rw [verifyExistence_ok svc b st0 tmpl0 lg0 s1 h, bindStep_ok]
    unfold destroyStep2
    rw [listContents_err svc b s1 tmpl0 (lg0 ++ [S3Request.headBucket b]) e s2 hl]
    rfl
  · intro s1 cs s2 e s3 h hl hne hdel
    unfold destroy destroySteps
    rw [verifyExistence_ok svc b st0 tmpl0 lg0 s1 h, bindStep_ok]
    unfold destroyStep2
    rw [listContents_ok svc b s1 tmpl0 (lg0 ++ [S3Request.headBucket b]) cs s2 hl,
      bindStepL_ok]
    unfold destroyStep3
    rw [removeContents_nonempty svc b cs s2 tmpl0
      (lg0 ++ [S3Request.headBucket b] ++ [S3Request.listObjects b])
      (some e) s3 hne hdel]
    rfl
  · intro s1 cs s2 sys3 e s4 h hl hrc hdb
    obtain ⟨st3, tmpl3, lg3⟩ := sys3
    unfold destroy destroySteps
    rw [verifyExistence_ok svc b st0 tmpl0 lg0 s1 h, bindStep_ok]
    unfold destroyStep2
    rw [listContents_ok svc b s1 tmpl0 (lg0 ++ [S3Request.headBucket b]) cs s2 hl,
      bindStepL_ok]
    unfold destroyStep3
    rw [hrc, bindStep_ok, removeBucket_split svc b st3 tmpl3 lg3 (some e) s4 hdb]
    rfl
  · intro s1 cs s2 sys3 s4 h hl hrc hdb
    obtain ⟨st3, tmpl3, lg3⟩ := sys3
    unfold destroy destroySteps
    rw [verifyExistence_ok svc b st0 tmpl0 lg0 s1 h, bindStep_ok]
    unfold destroyStep2
    rw [listContents_ok svc b s1 tmpl0 (lg0 ++ [S3Request.headBucket b]) cs s2 hl,
      bindStepL_ok]
    unfold destroyStep3
    rw [hrc, bindStep_ok, removeBucket_split svc b st3 tmpl3 lg3 none s4 hdb]
    rfl

/-- C3 witness: destroying a missing bucket issues only the probe and
succeeds; destroying a bucket holding one object runs all four steps in
order, ends with the bucket gone, and succeeds. -/
theorem c3_destroy_flow_witness :
    destroy awsModel "b" ⟨[], {}, []⟩ =
      (none, ⟨[], {}, [S3Request.headBucket "b"]⟩) ∧
    destroy awsModel "b"
        ⟨[("b", { objects := [{ key := "k", body := some "x", contentType := "m" }] })],
         {}, []⟩ =
      (none, ⟨[], {},
        [S3Request.headBucket "b", S3Request.listObjects "b",
         S3Request.deleteObjects "b" ["k"], S3Request.deleteBucket "b"]⟩) :=
  ⟨(c3_destroy_flow awsModel "b" ⟨[], {}, []⟩).1 ⟨404, "NotFound"⟩ [] rfl rfl,
   (c3_destroy_flow awsModel "b"
      ⟨[("b", { objects := [{ key := "k", body := some "x", contentType := "m" }] })],
       {}, []⟩).2.2.2.2.2
     [("b", { objects := [{ key := "k", body := some "x", contentType := "m" }] })]
     [{ Key := "k" }]
     [("b", { objects := [{ key := "k", body := some "x", contentType := "m" }] })]
     ⟨[("b", { objects := [] })], {},
      [S3Request.headBucket "b", S3Request.listObjects "b",
       S3Request.deleteObjects "b" ["k"]]⟩
     [] rfl rfl (by decide) rfl⟩

/-- C4: `verifyExistence` yields the distinguished NotFound sentinel exactly
when the existence probe fails with status code 404; an error with any other
status code is passed to the caller unchanged; and when the probe returns no
error the operation reports no error (the bucket exists). -/
theorem c4_verifyExistence (svc : S3Service σ) (b : String) (sys : Sys σ) :
    (∀ e s', svc.headBucket b sys.remote = (some e, s') → e.statusCode = 404 →
      verifyExistence svc b sys =
        (some JsErr.notFoundMsg,
         ⟨s', sys.template, sys.log ++ [S3Request.headBucket b]⟩)) ∧
    (∀ e s', svc.headBucket b sys.remote = (some e, s') → e.statusCode ≠ 404 →
      verifyExistence svc b sys =
        (some (JsErr.remote e),
         ⟨s', sys.template, sys.log ++ [S3Request.headBucket b]⟩)) ∧
    (∀ s', svc.headBucket b sys.remote = (none, s') →
      verifyExistence svc b sys =
        (none, ⟨s', sys.template, sys.log ++ [S3Request.headBucket b]⟩)) ∧
    (∀ e s', svc.headBucket b sys.remote = (some e, s') →
      ((verifyExistence svc b sys).1 = some JsErr.notFoundMsg ↔
        e.statusCode = 404)) := by
  refine ⟨?_, ?_, ?_, ?_⟩
  · intro e s' h h404
    unfold verifyExistence
    rw [h]
    simp [h404]
  · intro e s' h h404
    unfold verifyExistence
    rw [h]
    simp [h404]
  · intro s' h
    unfold verifyExistence
    rw [h]
  · intro e s' h
    unfold verifyExistence
    rw [h]
    by_cases h404 : e.statusCode = 404 <;> simp [h404]

/-- C4 witness: against the deterministic store model, probing a missing
bucket yields the NotFound sentinel and probing an existing one yields no
error. -/
theorem c4_verifyExistence_witness :
    verifyExistence awsModel "b" ⟨[], {}, []⟩ =
      (some JsErr.notFoundMsg, ⟨[], {}, [S3Request.headBucket "b"]⟩) ∧
    verifyExistence awsModel "b" ⟨[("b", {})], {}, []⟩ =
      (none, ⟨[("b", {})], {}, [S3Request.headBucket "b"]⟩) :=
  ⟨(c4_verifyExistence awsModel "b" ⟨[], {}, []⟩).1 ⟨404, "NotFound"⟩ [] rfl rfl,
   (c4_verifyExistence awsModel "b" ⟨[("b", {})], {}, []⟩).2.2.1 [("b", {})] rfl⟩

/-- C7: `removeContents` on an empty sequence returns success immediately
without issuing any remote request; on a non-empty sequence it issues
exactly one bulk-delete request whose object list holds the key of every
item of the sequence, and it returns that call's outcome. -/
theorem c7_removeContents (svc : S3Service σ) (b : String)
    (contents : List ObjectContent) (sys : Sys σ) :
    (contents = [] → removeContents svc b contents sys = (none, sys)) ∧
    (contents ≠ [] → ∀ r s',
      svc.deleteObjects b (contents.map ObjectContent.Key) sys.remote = (r, s') →
      removeContents svc b contents sys =
        (r.map JsErr.remote,
         ⟨s', sys.template,
          sys.log ++ [S3Request.deleteObjects b (contents.map ObjectContent.Key)]⟩) ∧
      ∀ c ∈ contents, c.Key ∈ contents.map ObjectContent.Key) := by
  constructor
  · intro h
    subst h
    rfl
  · intro hne r s' h
    have hempty : contents.isEmpty = false := by
      cases contents with
      | nil => exact absurd rfl hne
      | cons c t => rfl
    constructor
    · unfold removeContents
      rw [if_neg (by simp [hempty])]
      rw [h]
    · intro c hc
      exact List.mem_map.mpr ⟨c, hc, rfl⟩

/-- C7 witness: a concrete empty and a concrete singleton sequence against
the store model. -/
theorem c7_removeContents_witness :
    removeContents awsModel "b" [] ⟨[("b", {})], {}, []⟩ =
      (none, ⟨[("b", {})], {}, []⟩) ∧
    removeContents awsModel "b" [{ Key := "k" }] ⟨[("b", {})], {}, []⟩ =
      (none, ⟨[("b", {})], {},
        [S3Request.deleteObjects "b" ["k"]]⟩) :=
  ⟨(c7_removeContents awsModel "b" [] ⟨[("b", {})], {}, []⟩).1 rfl,
   ((c7_removeContents awsModel "b" [{ Key := "k" }]
      ⟨[("b", {})], {}, []⟩).2 (by decide) none [("b", {})] rfl).1⟩

/-- C9: a file whose computed object key is a member of `noCache` is put
with cache-control `no-cache, no-store, must-revalidate` and an expiry
timestamp not later than the time of the call, a file whose key is not a
member carries neither field, and `uploadFile` issues exactly one
`putObject` request carrying exactly those params. -/
theorem c9_noCache_params (svc : S3Service σ) (ctl : BucketCtl) (now : Nat)
    (filePath : String) (readResult : Except IOErr String) (sys : Sys σ) :
    (ctl.opts.noCache.contains
        (uploadParams ctl.opts now filePath readResult).key = true →
      (uploadParams ctl.opts now filePath readResult).cacheControl =
        some "no-cache, no-store, must-revalidate" ∧
      ∃ t, (uploadParams ctl.opts now filePath readResult).expires = some t ∧
        t ≤ now) ∧
    (ctl.opts.noCache.contains
        (uploadParams ctl.opts now filePath readResult).key = false →
      (uploadParams ctl.opts now filePath readResult).cacheControl = none ∧
      (uploadParams ctl.opts now filePath readResult).expires = none) ∧
    (uploadFile svc ctl now filePath readResult sys).2.log =
      sys.log ++ [S3Request.putObject ctl.bucketName
        (uploadParams ctl.opts now filePath readResult)] := by
  have hkeyEq : (uploadParams ctl.opts now filePath readResult).key =
      fileKeyOf ctl.opts.srcPath ctl.opts.removeExtensions filePath := by
    unfold uploadParams
    cases h : ctl.opts.noCache.contains
        (fileKeyOf ctl.opts.srcPath ctl.opts.removeExtensions filePath) with
    | true => rfl
    | false => rfl
  refine ⟨?_, ?_, ?_⟩
  · intro hmem
    rw [hkeyEq] at hmem
    unfold uploadParams
    rw [hmem]
    exact ⟨rfl, now, rfl, le_refl now⟩
  · intro hmem
    rw [hkeyEq] at hmem
    unfold uploadParams
    rw [hmem]
    exact ⟨rfl, rfl⟩
  · unfold uploadFile
    cases h : svc.putObject ctl.bucketName
        (uploadParams ctl.opts now filePath readResult) sys.remote with
    | mk r s' => rfl

/-- C9 witness: a concrete upload of `/site/a.txt`.  With key `a.txt` in
`noCache` the put params carry the cache-control string and an expiry equal
to the call time 7; with an empty `noCache` neither field is set. -/
theorem c9_noCache_params_witness :
    ((uploadParams { srcPath := "/site", noCache := ["a.txt"] } 7 "/site/a.txt"
        (Except.ok "body")).cacheControl =
      some "no-cache, no-store, must-revalidate" ∧
     ∃ t, (uploadParams { srcPath := "/site", noCache := ["a.txt"] } 7
        "/site/a.txt" (Except.ok "body")).expires = some t ∧ t ≤ 7) ∧
    ((uploadParams { srcPath := "/site" } 7 "/site/a.txt"
        (Except.ok "body")).cacheControl = none ∧
     (uploadParams { srcPath := "/site" } 7 "/site/a.txt"
        (Except.ok "body")).expires = none) :=
  ⟨(c9_noCache_params awsModel (mkBucket { srcPath := "/site", noCache := ["a.txt"] })
      7 "/site/a.txt" (Except.ok "body") ⟨[], {}, []⟩).1 (by decide),
   (c9_noCache_params awsModel (mkBucket { srcPath := "/site" })
      7 "/site/a.txt" (Except.ok "body") ⟨[], {}, []⟩).2.1 (by decide)⟩

/-- C8 (code bug at the read step): the `fs.readFile` callback in
`uploadFile` never inspects its `err` argument.  Here reading `/site/a.txt`
fails with EACCES, yet a `putObject` request is still issued — with an
undefined (`none`) body — and the read error is never surfaced: the call
reports success.  The claim (read failures are surfaced immediately and no
put is issued for the failed file) describes `uploadContent`'s and
`uploadDirectory`'s handling of stat/readdir errors, which the read path was
evidently meant to share. -/
theorem c8_readFile_error_swallowed :
    uploadFile awsModel (mkBucket { name := "site", srcPath := "/site" }) 0
        "/site/a.txt" (Except.error { msg := "EACCES" }) ⟨[("site", {})], {}, []⟩ =
      (none,
       ⟨[("site", { objects := [{ key := "a.txt", body := none, contentType := "mime.txt" }] })],
        {},
        [S3Request.putObject "site"
          { key := "a.txt", body := none, contentType := "mime.txt" }]⟩) := by
  rfl

/-- C6 (code bug): `var bucketPolicy = _.clone(policy)` is a shallow clone,
so `bucketPolicy.Statement` is the very array of the module-level template
and the `+=` on its first statement's resource writes through to module
state: a single `makePublic` call leaves the loaded policy template changed,
its resource now carrying `bucketName + "/*"`. -/
theorem c6_makePublic_mutates_template :
    (makePublic awsModel (mkBucket { name := "site" })
        ⟨[("site", {})], {}, []⟩).2.template =
      { Statement := [{ Resource := "arn:aws:s3:::site/*" }] } ∧
    (makePublic awsModel (mkBucket { name := "site" })
        ⟨[("site", {})], {}, []⟩).2.template ≠ ({} : PolicyDoc) :=
  ⟨rfl, by decide⟩

/-- C5 (code bug): `create` is not idempotent.  Both runs succeed, but
because `makePublic` mutates the module-level template through its shallow
clone, the second `create` submits a policy whose resource field carries the
bucket name twice — not the same policy as the first run, and the stored
remote policy differs accordingly. -/
theorem c5_second_create_policy_differs :
    (create awsModel (mkBucket { name := "site" }) ⟨[], {}, []⟩).1 = none ∧
    (create awsModel (mkBucket { name := "site" }) ⟨[], {}, []⟩).2.log =
      [S3Request.createBucket "site",
       S3Request.putBucketWebsite "site" "index.html",
       S3Request.putBucketPolicy "site"
         (policyJson { Statement := [{ Resource := "arn:aws:s3:::site/*" }] })] ∧
    (create awsModel (mkBucket { name := "site" })
        (create awsModel (mkBucket { name := "site" }) ⟨[], {}, []⟩).2).1 = none ∧
    (create awsModel (mkBucket { name := "site" })
        (create awsModel (mkBucket { name := "site" }) ⟨[], {}, []⟩).2).2.log =
      [S3Request.createBucket "site",
       S3Request.putBucketWebsite "site" "index.html",
       S3Request.putBucketPolicy "site"
         (policyJson { Statement := [{ Resource := "arn:aws:s3:::site/*" }] }),
       S3Request.createBucket "site",
       S3Request.putBucketWebsite "site" "index.html",
       S3Request.putBucketPolicy "site"
         (policyJson { Statement := [{ Resource := "arn:aws:s3:::site/*site/*" }] })] ∧
    policyJson { Statement := [{ Resource := "arn:aws:s3:::site/*" }] } ≠
      policyJson { Statement := [{ Resource := "arn:aws:s3:::site/*site/*" }] } :=
  ⟨rfl, rfl, rfl, rfl, by decide⟩

end S3Site
